import Mathlib

/-!
Shallow embedding of the aoc-bot leaderboard notifier
(`src/aoc_bot/modules/leaderboard.py`, `src/aoc_bot/modules/link_command.py`).

Python strings are modelled as Lean `String` (both compare lexicographically
by code point), Python sets of tuples as `Finset`, Python dicts (which keep
insertion order) as association lists `List (String × String)`, and file /
network effects as explicit data passed in and returned.
-/

/-- A completion event: the (member_id, day, part) string triple produced by
`get_leaderboard_set`. -/
abbrev Ev := String × String × String

/-- Python string comparison: the code list order (lexicographic by code
point) on the character sequences. Stated through the structurally recursive
core order so that concrete comparisons evaluate. -/
def strlt (a b : String) : Prop := List.lt a.data b.data

instance : DecidableRel strlt := fun a b => List.hasDecidableLt a.data b.data

/-- Python's tuple comparison on `(member_id, day, part)`: lexicographic,
comparing component strings by code point. This is the order used by
`sorted(new_events - old_events)` in `on_schedule`. -/
def evLe (e f : Ev) : Prop :=
  strlt e.1 f.1 ∨ e.1 = f.1 ∧
    (strlt e.2.1 f.2.1 ∨ e.2.1 = f.2.1 ∧ (strlt e.2.2 f.2.2 ∨ e.2.2 = f.2.2))

instance : DecidableRel evLe := fun e f => by
  dsimp only [evLe]; infer_instance

instance : IsTrans Ev evLe := ⟨by
  have hiff : ∀ a b : String, strlt a b ↔ a < b := fun a b =>
    (List.lt_iff_lex_lt _ _).trans String.lt_iff_toList_lt.symm
  rintro ⟨a1, a2, a3⟩ ⟨b1, b2, b3⟩ ⟨c1, c2, c3⟩ hab hbc
  simp only [evLe, hiff] at *
  rcases hab with h1 | ⟨e1, h1⟩
  · rcases hbc with h2 | ⟨e2, h2⟩
    · exact Or.inl (h1.trans h2)
    · exact Or.inl (e2 ▸ h1)
  · rcases hbc with h2 | ⟨e2, h2⟩
    · exact Or.inl (e1 ▸ h2)
    · refine Or.inr ⟨e1.trans e2, ?_⟩
      rcases h1 with h1 | ⟨f1, h1⟩
      · rcases h2 with h2 | ⟨f2, h2⟩
        · exact Or.inl (h1.trans h2)
        · exact Or.inl (f2 ▸ h1)
      · rcases h2 with h2 | ⟨f2, h2⟩
        · exact Or.inl (f1 ▸ h2)
        · refine Or.inr ⟨f1.trans f2, ?_⟩
          rcases h1 with h1 | h1
          · rcases h2 with h2 | h2
            · exact Or.inl (h1.trans h2)
            · exact Or.inl (h2 ▸ h1)
          · rcases h2 with h2 | h2
            · exact Or.inl (h1 ▸ h2)
            · exact Or.inr (h1.trans h2)⟩

instance : IsAntisymm Ev evLe := ⟨by
  have hiff : ∀ a b : String, strlt a b ↔ a < b := fun a b =>
    (List.lt_iff_lex_lt _ _).trans String.lt_iff_toList_lt.symm
  rintro ⟨a1, a2, a3⟩ ⟨b1, b2, b3⟩ hab hba
  simp only [evLe, hiff] at *
  rcases hab with h1 | ⟨e1, h1⟩
  · rcases hba with h2 | ⟨e2, h2⟩
    · exact absurd (h1.trans h2) (lt_irrefl _)
    · exact absurd h1 (e2 ▸ lt_irrefl _)
  · rcases hba with h2 | ⟨e2, h2⟩
    · exact absurd h2 (e1 ▸ lt_irrefl _)
    · subst e1
      rcases h1 with h1 | ⟨f1, h1⟩
      · rcases h2 with h2 | ⟨f2, h2⟩
        · exact absurd (h1.trans h2) (lt_irrefl _)
        · exact absurd h1 (f2 ▸ lt_irrefl _)
      · rcases h2 with h2 | ⟨f2, h2⟩
        · exact absurd h2 (f1 ▸ lt_irrefl _)
        · subst f1
          rcases h1 with h1 | h1
          · rcases h2 with h2 | h2
            · exact absurd (h1.trans h2) (lt_irrefl _)
            · exact absurd h1 (h2 ▸ lt_irrefl _)
          · rw [h1]⟩

instance : IsTotal Ev evLe := ⟨by
  have hiff : ∀ a b : String, strlt a b ↔ a < b := fun a b =>
    (List.lt_iff_lex_lt _ _).trans String.lt_iff_toList_lt.symm
  rintro ⟨a1, a2, a3⟩ ⟨b1, b2, b3⟩
  simp only [evLe, hiff]
  rcases lt_trichotomy a1 b1 with h | h | h
  · exact Or.inl (Or.inl h)
  · rcases lt_trichotomy a2 b2 with h2 | h2 | h2
    · exact Or.inl (Or.inr ⟨h, Or.inl h2⟩)
    · rcases lt_trichotomy a3 b3 with h3 | h3 | h3
      · exact Or.inl (Or.inr ⟨h, Or.inr ⟨h2, Or.inl h3⟩⟩)
      · exact Or.inl (Or.inr ⟨h, Or.inr ⟨h2, Or.inr h3⟩⟩)
      · exact Or.inr (Or.inr ⟨h.symm, Or.inr ⟨h2.symm, Or.inl h3⟩⟩)
    · exact Or.inr (Or.inr ⟨h.symm, Or.inl h2⟩)
  · exact Or.inr (Or.inl h)⟩

/-- One member object from the leaderboard JSON. The "name" key may be
absent (`none`) or present with a JSON null (`some none`) or a string
(`some (some s)`); `completion_day_level` maps a day-string to the list of
part-strings present for that day. -/
structure Member where
  name : Option (Option String)
  completion_day_level : List (String × List String)
deriving DecidableEq

/-- The parsed leaderboard JSON: the "members" object, keyed by member-id
string. -/
structure Leaderboard where
  members : List (String × Member)
deriving DecidableEq

/-- Model of `get_leaderboard_set` (leaderboard.py lines 94-120): the set of
(member_id, day, part) tuples, keeping only part "2" when `require_both`
is true and everything otherwise. -/
def get_leaderboard_set (leaderboard : Leaderboard) (require_both : Bool) :
    Finset Ev :=
  (leaderboard.members.flatMap fun p =>
    p.2.completion_day_level.flatMap fun q =>
      (q.2.filter fun part =>
        (require_both && part == "2") || !require_both).map
        fun part => (p.1, q.1, part)).toFinset

/-- Sorting a multiset of events by Python tuple comparison, by insertion
sort (kept structurally recursive so that concrete runs reduce). -/
def eventSort (s : Multiset Ev) : List Ev :=
  Quot.liftOn s (List.insertionSort evLe) fun _ _ h =>
    List.eq_of_perm_of_sorted
      ((List.perm_insertionSort _ _).trans (h.trans (List.perm_insertionSort _ _).symm))
      (List.sorted_insertionSort _ _) (List.sorted_insertionSort _ _)

/-- The `sorted(new_events - old_events)` computation from `on_schedule`
(leaderboard.py line 342): the set difference ordered by Python tuple
comparison. -/
def leaderboard_diff (old_events new_events : Finset Ev) : List Ev :=
  eventSort (new_events \ old_events).val

/-- Calendar date as read by `date.today()` in `get_default_year`: only the
year and month fields are consulted. -/
structure Date where
  year : Int
  month : Nat
deriving DecidableEq

/-- Model of `get_default_year` (leaderboard.py lines 23-37): the previous
year unless the month is November or December. -/
def get_default_year (today : Date) : Int :=
  if today.month ≠ 11 ∧ today.month ≠ 12 then today.year - 1 else today.year

/-- The year used by `fetch_leaderboard` (leaderboard.py lines 81-82): the
optional `--year` override when given, else `get_default_year()`. -/
def fetch_leaderboard_year (year : Option Int) (today : Date) : Int :=
  match year with
  | none => get_default_year today
  | some y => y

/-- The URL requested by `fetch_leaderboard` (leaderboard.py lines 84-87). -/
def fetch_leaderboard_url (leaderboard_id : Int) (year : Option Int) (today : Date) :
    String :=
  "https://adventofcode.com/" ++ toString (fetch_leaderboard_year year today) ++
    "/leaderboard/private/view/" ++ toString leaderboard_id ++ ".json"

/-- Result of opening and parsing a JSON file: parsed contents, file absent
(`FileNotFoundError`), or malformed JSON (`json.decoder.JSONDecodeError`). -/
inductive FileRead (α : Type) where
  | ok (val : α)
  | missing
  | corrupt
deriving DecidableEq

/-- Model of `retrieve_cached_leaderboard` (leaderboard.py lines 40-52):
`FileNotFoundError` yields the empty leaderboard `{}`; a JSON parse error is
not caught there and aborts the caller, modelled as `none`. -/
def retrieve_cached_leaderboard (cache : FileRead Leaderboard) : Option Leaderboard :=
  match cache with
  | .ok lb => some lb
  | .missing => some ⟨[]⟩
  | .corrupt => none

/-- Model of `solved_all_days` (leaderboard.py lines 204-229): for every day
in `range(1, 26)` some event equal in all three components to
(member_id, str(day), "2") occurs in the set. -/
def solved_all_days (events : Finset Ev) (member_id : String) : Bool :=
  (List.range' 1 25).all fun day =>
    decide (∃ e ∈ events, e.1 = member_id ∧ e.2.1 = toString day ∧ e.2.2 = "2")

/-- The truncation step of `send_webhook_notification` (leaderboard.py lines
146-150): when the content exceeds `max_content_len` characters, keep the
first `max_content_len // 3` characters and append the fixed marker. -/
def truncate_content (content : String) (max_content_len : Nat) : String :=
  if content.length > max_content_len then
    content.take (max_content_len / 3) ++ "... and more updates."
  else content

/-- Model of `display_aoc_user` (leaderboard.py lines 164-201). The
mapping-file read and the guild member list are passed explicitly; a
`KeyError` (unmapped member, or mapped to an id absent from the guild),
`FileNotFoundError` or `JSONDecodeError` falls back to the AoC name, or to an
anonymized tag when the name is null or empty. -/
def display_aoc_user (mapping_read : FileRead (List (String × String)))
    (aoc_user_id : String) (aoc_user : Member) (discord_members : List String) :
    String :=
  let fallback : String :=
    match aoc_user.name with
    | some (some n) => if n = "" then "Anonymous User #" ++ aoc_user_id else n
    | _ => "Anonymous User #" ++ aoc_user_id
  match mapping_read with
  | .ok mapping =>
    match mapping.lookup aoc_user_id with
    | some discord_id =>
        if discord_id ∈ discord_members then "<@" ++ discord_id ++ ">" else fallback
    | none => fallback
  | _ => fallback

/-- Python truthiness of the optional integer `--completion-role` argument as
tested by `if role_id:` in `display_final_message`. -/
def role_configured (role_id : Option Int) : Bool :=
  match role_id with
  | none => false
  | some n => n != 0

/-- The congratulation prefix built at leaderboard.py line 259 (the leading
characters reproduce the literal bytes of the source string). -/
def completion_congrats (year : Option Int) (today : Date) : String :=
  "ðŸŽ‰ **Congrats on completing all 25 days of AoC " ++
    toString (match year with | none => get_default_year today | some y => y) ++ "!** "

/-- The reward sentence appended at leaderboard.py line 266. -/
def reward_granted_text (n : Int) : String :=
  "As a reward, you get the <@&" ++ toString n ++ "> role until the end of January!"

/-- The linking invitation appended at leaderboard.py line 276. -/
def link_invite_text : String :=
  "If you want to receive a coloured name as a reward, link your AoC account with `/link_aoc`!"

/-- Model of `display_final_message` (leaderboard.py lines 232-278): the
congratulation, extended when the role is configured by either the reward
sentence (member found in the mapping file) or the linking invitation (any of
`AssertionError`, `KeyError`, `FileNotFoundError`, `JSONDecodeError`). -/
def display_final_message (mapping_read : FileRead (List (String × String)))
    (member_id : String) (role_id : Option Int) (year : Option Int) (today : Date) :
    String :=
  if role_configured role_id then
    match mapping_read with
    | .ok mapping =>
        if (mapping.lookup member_id).isSome then
          completion_congrats year today ++ reward_granted_text (role_id.getD 0)
        else completion_congrats year today ++ link_invite_text
    | _ => completion_congrats year today ++ link_invite_text
  else completion_congrats year today

/-- Whether a mapping-file read holds an entry for the given key. -/
def mapping_has_key (mapping_read : FileRead (List (String × String))) (k : String) :
    Bool :=
  match mapping_read with
  | .ok m => (m.lookup k).isSome
  | _ => false

/-- Wall-clock instant read by `datetime.now()` in `on_schedule`. -/
structure DateTime where
  year : Nat
  month : Nat
  day : Nat
  hour : Nat
  minute : Nat
  second : Nat
deriving DecidableEq

/-- Zero-padding of a number to a minimum width, as `strftime` renders each
field. -/
def zero_pad (width n : Nat) : String :=
  let s := toString n
  String.mk (List.replicate (width - s.length) '0') ++ s

/-- The suffix `datetime.now().strftime("%Y%m%d.%H.%M.%S.cachebackup")`
appended to the cache path at leaderboard.py lines 353-357. -/
def strftime_backup_suffix (t : DateTime) : String :=
  zero_pad 4 t.year ++ zero_pad 2 t.month ++ zero_pad 2 t.day ++ "." ++
    zero_pad 2 t.hour ++ "." ++ zero_pad 2 t.minute ++ "." ++ zero_pad 2 t.second ++
    ".cachebackup"

/-- Externally visible effects of one `on_schedule` cycle: the path the old
cache file was renamed to by `os.replace` (if any), the snapshot written to
the primary cache file (if any), and the webhook message content dispatched
after truncation (if any). -/
structure CycleEffects where
  backup_path : Option String
  saved_cache : Option Leaderboard
  webhook_content : Option String
deriving DecidableEq

/-- One line of the notification batch, `"[{}] {} solved Day #{}."`, extended
with the completion message when `solved_all_days` holds (leaderboard.py
lines 368-396; the star markers reproduce the literal bytes of the source). -/
def cycle_message (mapping_read : FileRead (List (String × String)))
    (new_leaderboard : Leaderboard) (new_events : Finset Ev)
    (discord_members : List String) (completion_role : Option Int)
    (year : Option Int) (today : Date) (e : Ev) : String :=
  let aoc_user := (new_leaderboard.members.lookup e.1).getD ⟨none, []⟩
  let message := "[" ++ (if e.2.2 = "2" then "â˜…â˜…" else "â˜…ã€€") ++ "] " ++
    display_aoc_user mapping_read e.1 aoc_user discord_members ++
    " solved Day #" ++ e.2.1 ++ "."
  if solved_all_days new_events e.1 then
    message ++ "\n" ++ display_final_message mapping_read e.1 completion_role year today
  else message

/-- Model of `on_schedule` (leaderboard.py lines 323-405) from the point where
the cached and the freshly fetched leaderboards are both in hand: compute the
two event sets and the sorted diff, then either end silently (no change), back
up and replace the cache (regression), or build the batched message, send it
through the webhook truncation, and overwrite the cache. -/
def on_schedule (cache_file : String) (old_leaderboard new_leaderboard : Leaderboard)
    (require_both_stars : Bool) (now : DateTime)
    (mapping_read : FileRead (List (String × String))) (discord_members : List String)
    (completion_role : Option Int) (year : Option Int) (today : Date) : CycleEffects :=
  if leaderboard_diff (get_leaderboard_set old_leaderboard require_both_stars)
      (get_leaderboard_set new_leaderboard require_both_stars) = [] then
    if get_leaderboard_set old_leaderboard require_both_stars =
        get_leaderboard_set new_leaderboard require_both_stars then
      ⟨none, none, none⟩
    else ⟨some (cache_file ++ strftime_backup_suffix now), some new_leaderboard, none⟩
  else
    ⟨none, some new_leaderboard,
      some (truncate_content (String.intercalate "\n"
        ((leaderboard_diff (get_leaderboard_set old_leaderboard require_both_stars)
            (get_leaderboard_set new_leaderboard require_both_stars)).map
          (cycle_message mapping_read new_leaderboard
            (get_leaderboard_set new_leaderboard require_both_stars) discord_members
            completion_role year today))) 2000)⟩

/-- Externally visible effects of a slash-command invocation: the mapping
written back to the mapping file (when a write happened), the replies sent to
the invoking user, and any webhook message dispatched. -/
structure CommandEffects where
  written_mapping : Option (List (String × String))
  responses : List String
  webhook_content : Option String
deriving DecidableEq

/-- Python dict assignment `mapping[k] = v`: overwrite in place when the key
exists, else append (dicts keep insertion order). -/
def dict_insert (m : List (String × String)) (k v : String) :
    List (String × String) :=
  if (m.lookup k).isSome then m.map fun p => if p.1 = k then (k, v) else p
  else m ++ [(k, v)]

/-- The AoC username echoed in the link/unlink confirmation (link_command.py
lines 61-67 and 153-159): the member's "name" value when the key is present
(a JSON null renders as "None", as a Python f-string does), else the default
"Anonymous User". -/
def lookup_aoc_username (cached : Leaderboard) (aoc_id : String) : String :=
  match cached.members.lookup aoc_id with
  | some member =>
    match member.name with
    | some (some n) => n
    | some none => "None"
    | none => "Anonymous User"
  | none => "Anonymous User"

/-- The reply text used by both commands when the mapping-file JSON is
malformed (link_command.py lines 50 and 135). -/
def read_failure_reply : String := "Failed to link! Logs printed to console."

/-- Model of `link_command` (link_command.py lines 28-109): a corrupt mapping
read aborts with a failure reply before any write; a missing file proceeds
with an empty mapping; otherwise the entry is inserted, the mapping is written
back, a confirmation is sent, and when the cached snapshot shows all 25 days
solved the completion webhook is also dispatched. A corrupt cache file raises
an uncaught parse error before the write, aborting with no effects. -/
def link_command (mapping_read : FileRead (List (String × String)))
    (aoc_id : Int) (author_id author_username author_mention : String)
    (cache_read : FileRead Leaderboard) (require_both_stars : Bool)
    (completion_role : Option Int) (today : Date) : CommandEffects :=
  let go : List (String × String) → CommandEffects := fun mapping =>
    let mapping2 := dict_insert mapping (toString aoc_id) author_id
    match retrieve_cached_leaderboard cache_read with
    | none => ⟨none, [], none⟩
    | some cached =>
      let aoc_username := lookup_aoc_username cached (toString aoc_id)
      let events := get_leaderboard_set cached require_both_stars
      let webhook :=
        if solved_all_days events (toString aoc_id) then
          some (author_mention ++ " linked their account.\n" ++
            display_final_message (.ok mapping2) (toString aoc_id) completion_role
              none today)
        else none
      ⟨some mapping2,
        ["Linked " ++ author_username ++ " with AoC User ID " ++ toString aoc_id ++
          " (" ++ aoc_username ++ ")!"], webhook⟩
  match mapping_read with
  | .corrupt => ⟨none, [read_failure_reply], none⟩
  | .missing => go []
  | .ok mapping => go mapping

/-- Old snapshot of the §8 scenario: member "42" with day "5" part "1" only. -/
def scenario_old : Leaderboard :=
  ⟨[("42", ⟨some (some "Forty Two"), [("5", ["1"])]⟩)]⟩

/-- New snapshot of the §8 scenario: additionally part "2" for day "5". -/
def scenario_new : Leaderboard :=
  ⟨[("42", ⟨some (some "Forty Two"), [("5", ["1", "2"])]⟩)]⟩

/-- Sample event set whose sorted diff demonstrates the string ordering of
days: for one member the day-"10" event precedes the day-"2" event. -/
def sample_events : Finset Ev := {("42", "10", "2"), ("42", "2", "2")}

/-- Event set in which member "7" has a part-"2" event for all 25 days. -/
def all_days_events : Finset Ev :=
  ((List.range' 1 25).map fun day => ("7", toString day, "2")).toFinset

/-- A 2001-character text, exceeding the default 2000-character limit. -/
def big_content : String := String.mk (List.replicate 2001 'a')

/-- A 31-character text, exceeding a 30-character limit. -/
def small_content : String := String.mk (List.replicate 31 'b')

/-- Concrete old leaderboard for the regression cycle: one part-"2" event. -/
def wit_old_lb : Leaderboard := ⟨[("9", ⟨none, [("1", ["2"])]⟩)]⟩

/-- Concrete new leaderboard for the regression cycle: empty. -/
def wit_new_lb : Leaderboard := ⟨[]⟩

/-- Concrete wall-clock instant for the regression cycle. -/
def wit_now : DateTime := ⟨2021, 1, 1, 0, 0, 0⟩

/-! Helper lemmas. -/

theorem string_data_append (a b : String) : (a ++ b).data = a.data ++ b.data := rfl

theorem string_length_data (s : String) : s.length = s.data.length := rfl

theorem string_length_append (a b : String) :
    (a ++ b).length = a.length + b.length := by
  rw [string_length_data, string_data_append, List.length_append,
    ← string_length_data, ← string_length_data]

theorem string_eq_of_data {a b : String} (h : a.data = b.data) : a = b := by
  cases a; cases b; cases h; rfl

theorem eventSort_sorted (s : Multiset Ev) : List.Sorted evLe (eventSort s) := by
  induction s using Quot.inductionOn with
  | _ l => exact List.sorted_insertionSort evLe l

theorem mem_eventSort {s : Multiset Ev} {e : Ev} : e ∈ eventSort s ↔ e ∈ s := by
  induction s using Quot.inductionOn with
  | _ l => exact ((List.perm_insertionSort evLe l).mem_iff).trans Multiset.mem_coe.symm

theorem eventSort_nodup (s : Multiset Ev) (h : s.Nodup) : (eventSort s).Nodup := by
  induction s using Quot.inductionOn with
  | _ l => exact ((List.perm_insertionSort evLe l).nodup_iff).mpr h

theorem backup_suffix_long (t : DateTime) : 12 ≤ (strftime_backup_suffix t).length := by
  rw [strftime_backup_suffix, string_length_append]
  have h : (".cachebackup" : String).length = 12 := rfl
  omega

theorem append_backup_suffix_ne (s : String) (t : DateTime) :
    s ++ strftime_backup_suffix t ≠ s := by
  intro h
  have hl := congrArg String.length h
  rw [string_length_append] at hl
  have := backup_suffix_long t
  omega

/-! Claim theorems. -/

/-- C1, counterexample: in the §8 scenario (old snapshot has member "42" with
day "5" part "1" only, new snapshot adds part "2"), the projected difference
with `requireBoth=false` is not the empty set the claim predicts. -/
theorem C1_counterexample :
    get_leaderboard_set scenario_new false \ get_leaderboard_set scenario_old false ≠ ∅ := by
  decide

/-- C1, amended: in the §8 scenario the set difference new-minus-old is
{("42", "5", "2")} with `requireBoth=true`, and it is the same singleton —
not the empty set — with `requireBoth=false`, since only the part-"1" event
was already present before. -/
theorem C1_theorem :
    get_leaderboard_set scenario_new true \ get_leaderboard_set scenario_old true =
      {("42", "5", "2")} ∧
    get_leaderboard_set scenario_new false \ get_leaderboard_set scenario_old false =
      {("42", "5", "2")} := by
  constructor <;> decide

/-- C2: when the positive diff is empty but the event sets differ, the cycle
renames the cache file to the timestamp-suffixed backup path — a path
distinct from the primary cache path — overwrites the primary cache with the
new (regressed) snapshot, and sends no webhook. -/
theorem C2_theorem (cache_file : String) (old_lb new_lb : Leaderboard) (rb : Bool)
    (now : DateTime) (mr : FileRead (List (String × String))) (dm : List String)
    (cr : Option Int) (yr : Option Int) (today : Date)
    (hdiff : leaderboard_diff (get_leaderboard_set old_lb rb)
      (get_leaderboard_set new_lb rb) = [])
    (hne : get_leaderboard_set old_lb rb ≠ get_leaderboard_set new_lb rb) :
    on_schedule cache_file old_lb new_lb rb now mr dm cr yr today =
      ⟨some (cache_file ++ strftime_backup_suffix now), some new_lb, none⟩ ∧
    cache_file ++ strftime_backup_suffix now ≠ cache_file := by
  constructor
  · rw [on_schedule, if_pos hdiff, if_neg hne]
  · exact append_backup_suffix_ne cache_file now

/-- C2, witness: a concrete regression run (old snapshot has one part-"2"
event, new snapshot is empty). -/
theorem C2_witness :
    on_schedule "cache.json" wit_old_lb wit_new_lb true wit_now .missing [] none none
      ⟨2021, 1⟩ =
      ⟨some ("cache.json" ++ strftime_backup_suffix wit_now), some wit_new_lb, none⟩ ∧
    "cache.json" ++ strftime_backup_suffix wit_now ≠ "cache.json" :=
  C2_theorem "cache.json" wit_old_lb wit_new_lb true wit_now .missing [] none none
    ⟨2021, 1⟩ (by decide) (by decide)

/-- C3: when the old and new projected event sets are equal, the cycle ends
with no rename, no cache write and no webhook dispatch. -/
theorem C3_theorem (cache_file : String) (old_lb new_lb : Leaderboard) (rb : Bool)
    (now : DateTime) (mr : FileRead (List (String × String))) (dm : List String)
    (cr : Option Int) (yr : Option Int) (today : Date)
    (heq : get_leaderboard_set old_lb rb = get_leaderboard_set new_lb rb) :
    on_schedule cache_file old_lb new_lb rb now mr dm cr yr today =
      ⟨none, none, none⟩ := by
  have hdiff : leaderboard_diff (get_leaderboard_set old_lb rb)
      (get_leaderboard_set new_lb rb) = [] := by
    rw [leaderboard_diff, heq, Finset.sdiff_self]
    rfl
  rw [on_schedule, if_pos hdiff, if_pos heq]

/-- C3, witness: a concrete unchanged run. -/
theorem C3_witness :
    on_schedule "cache.json" wit_old_lb wit_old_lb true wit_now .missing [] none none
      ⟨2021, 1⟩ = ⟨none, none, none⟩ :=
  C3_theorem "cache.json" wit_old_lb wit_old_lb true wit_now .missing [] none none
    ⟨2021, 1⟩ rfl

/-- C4: `solved_all_days` is true iff every day 1..25 has the part-"2" event
for that member in the set, and is false whenever any single such day is
missing. -/
theorem C4_theorem (events : Finset Ev) (member_id : String) :
    (solved_all_days events member_id = true ↔
      ∀ day : ℕ, 1 ≤ day → day ≤ 25 → (member_id, toString day, "2") ∈ events) ∧
    ∀ day : ℕ, 1 ≤ day → day ≤ 25 → (member_id, toString day, "2") ∉ events →
      solved_all_days events member_id = false := by
  have key : solved_all_days events member_id = true ↔
      ∀ day : ℕ, 1 ≤ day → day ≤ 25 → (member_id, toString day, "2") ∈ events := by
    rw [solved_all_days, List.all_eq_true]
    constructor
    · intro h day h1 h2
      have hmem : day ∈ List.range' 1 25 := by
        rw [List.mem_range']
        exact ⟨day - 1, by omega, by omega⟩
      have hd := h day hmem
      rw [decide_eq_true_eq] at hd
      obtain ⟨e, he, h1', h2', h3'⟩ := hd
      obtain ⟨e1, e2, e3⟩ := e
      dsimp at h1' h2' h3'
      subst h1'; subst h2'; subst h3'
      exact he
    · intro h day hday
      rw [List.mem_range'] at hday
      obtain ⟨i, hi, hdi⟩ := hday
      rw [decide_eq_true_eq]
      exact ⟨(member_id, toString day, "2"), h day (by omega) (by omega), rfl, rfl, rfl⟩
  refine ⟨key, fun day h1 h2 hnot => ?_⟩
  cases hval : solved_all_days events member_id
  · rfl
  · exact absurd (key.mp hval day h1 h2) hnot

/-- C4, witness: with all 25 part-"2" events present the predicate is true;
with none it is false. -/
theorem C4_witness :
    solved_all_days all_days_events "7" = true ∧ solved_all_days ∅ "7" = false := by
  constructor
  · refine (C4_theorem all_days_events "7").1.mpr ?_
    have h : ∀ day ∈ Finset.Icc (1 : ℕ) 25,
        (("7" : String), toString day, "2") ∈ all_days_events := by decide
    intro day h1 h2
    exact h day (Finset.mem_Icc.mpr ⟨h1, h2⟩)
  · exact (C4_theorem ∅ "7").2 1 (by decide) (by decide) (by decide)

/-- C6: the cycle diff lists exactly the events of the set difference
new-minus-old, without duplicates, sorted by the lexicographic order on the
(member_id, day, part) string triples; under that order a day-"10" event for
a member precedes the day-"2" event, as the concrete run shows. -/
theorem C6_theorem (old_events new_events : Finset Ev) :
    (∀ e : Ev, e ∈ leaderboard_diff old_events new_events ↔
      e ∈ new_events ∧ e ∉ old_events) ∧
    List.Sorted evLe (leaderboard_diff old_events new_events) ∧
    (leaderboard_diff old_events new_events).Nodup ∧
    (∀ m p q : String, evLe (m, "10", p) (m, "2", q)) ∧
    leaderboard_diff ∅ sample_events = [("42", "10", "2"), ("42", "2", "2")] := by
  refine ⟨fun e => ?_, eventSort_sorted _,
    eventSort_nodup _ (new_events \ old_events).nodup, ?_, by decide⟩
  · rw [leaderboard_diff, mem_eventSort, Finset.mem_val]
    exact Finset.mem_sdiff
  · intro m p q
    refine Or.inr ⟨rfl, Or.inl ?_⟩
    show strlt "10" "2"
    decide

/-- Length of the concrete 2001-character text. -/
theorem big_content_length : big_content.length = 2001 := by
  show (List.replicate 2001 'a').length = 2001
  exact List.length_replicate 2001 'a'

/-- C5, counterexample: the truncated 2001-character text does not end with
the claimed marker "...and more updates." (the code's marker has a space
after the ellipsis), and at maxLen 30 with a 31-character text the output is
31 characters long, exceeding the claimed bound. -/
theorem C5_counterexample :
    (¬ ∃ t : String, truncate_content big_content 2000 =
      t ++ "...and more updates.") ∧
    ¬ (truncate_content small_content 30).length ≤ 30 := by
  constructor
  · rintro ⟨t, h⟩
    have hbig := big_content_length
    have hbr : truncate_content big_content 2000 =
        big_content.take 666 ++ "... and more updates." := by
      rw [truncate_content, if_pos (by omega)]
    rw [hbr] at h
    have h2 := congrArg (fun s : String => s.data.reverse.take 20) h
    dsimp only at h2
    have hm21 : (20 : Nat) ≤ ("... and more updates." : String).data.reverse.length := by
      decide
    have hcl : ("...and more updates." : String).data.reverse.length = 20 := by
      decide
    rw [string_data_append, string_data_append, List.reverse_append,
      List.reverse_append, List.take_append_of_le_length hm21,
      List.take_left' hcl] at h2
    exact absurd h2 (by decide)
  · decide

/-- C5, amended: for a text longer than `maxLen` with `maxLen ≥ 31`, the
truncation keeps the first `maxLen / 3` characters, appends the fixed marker
"... and more updates." (with a space after the ellipsis), and the result is
at most `maxLen` characters long; the bound in particular holds for the
default `maxLen` of 2000. -/
theorem C5_theorem (content : String) (max_content_len : Nat)
    (hlen : max_content_len < content.length) (hmin : 31 ≤ max_content_len) :
    (truncate_content content max_content_len).length ≤ max_content_len ∧
    (truncate_content content max_content_len).take (max_content_len / 3) =
      content.take (max_content_len / 3) ∧
    ∃ t : String, truncate_content content max_content_len =
      t ++ "... and more updates." := by
  have hbr : truncate_content content max_content_len =
      content.take (max_content_len / 3) ++ "... and more updates." := by
    rw [truncate_content, if_pos (by omega)]
  have hdata : (content.take (max_content_len / 3)).data =
      content.data.take (max_content_len / 3) := String.data_take content _
  have htk : (content.take (max_content_len / 3)).length = max_content_len / 3 := by
    rw [string_length_data, hdata, List.length_take]
    rw [string_length_data] at hlen
    omega
  refine ⟨?_, ?_, content.take (max_content_len / 3), hbr⟩
  · rw [hbr, string_length_append, htk]
    have hm : ("... and more updates." : String).length = 21 := rfl
    omega
  · rw [hbr]
    apply string_eq_of_data
    rw [String.data_take, string_data_append, List.take_left']
    rw [← string_length_data]
    exact htk

/-- C5, witness: the amended statement at the default 2000-character limit
on a concrete 2001-character text. -/
theorem C5_witness :
    (truncate_content big_content 2000).length ≤ 2000 ∧
    (truncate_content big_content 2000).take 666 = big_content.take 666 ∧
    ∃ t : String, truncate_content big_content 2000 = t ++ "... and more updates." :=
  C5_theorem big_content 2000 (by rw [big_content_length]; omega) (by omega)

/-- C7, counterexample: with no reward role configured, the completion
message for a mapped member is the bare congratulation; it does not contain
the linking invitation the claim predicts. -/
theorem C7_counterexample :
    display_final_message (.ok [("42", "111")]) "42" none none ⟨2021, 12⟩ =
      completion_congrats none ⟨2021, 12⟩ ∧
    ¬ (link_invite_text.data <:+:
      (display_final_message (.ok [("42", "111")]) "42" none none ⟨2021, 12⟩).data) := by
  constructor
  · rfl
  · decide

/-- C7, amended: when the reward role is configured and the member is found
in the mapping file, the message states the reward role is granted; when the
role is configured but the member is unmapped or the mapping file is missing
or corrupt, the message invites the user to link; when no role is configured,
the message is the bare congratulation with neither addition. -/
theorem C7_theorem (mr : FileRead (List (String × String))) (mid : String)
    (role_id : Option Int) (year : Option Int) (today : Date) :
    (role_configured role_id = true → mapping_has_key mr mid = true →
      display_final_message mr mid role_id year today =
        completion_congrats year today ++ reward_granted_text (role_id.getD 0)) ∧
    (role_configured role_id = true → mapping_has_key mr mid = false →
      display_final_message mr mid role_id year today =
        completion_congrats year today ++ link_invite_text) ∧
    (role_configured role_id = false →
      display_final_message mr mid role_id year today =
        completion_congrats year today) := by
  refine ⟨fun hrole hkey => ?_, fun hrole hkey => ?_, fun hrole => ?_⟩
  · cases mr with
    | ok m =>
      rw [mapping_has_key] at hkey
      simp [display_final_message, hrole, hkey]
    | missing => simp [mapping_has_key] at hkey
    | corrupt => simp [mapping_has_key] at hkey
  · cases mr with
    | ok m =>
      rw [mapping_has_key] at hkey
      simp [display_final_message, hrole, hkey]
    | missing => simp [display_final_message, hrole]
    | corrupt => simp [display_final_message, hrole]
  · cases mr <;> simp [display_final_message, hrole]

/-- C7, witness: a configured role and a mapped member yield the
reward-granted message. -/
theorem C7_witness :
    display_final_message (.ok [("42", "111")]) "42" (some 5) (some 2021) ⟨2021, 12⟩ =
      completion_congrats (some 2021) ⟨2021, 12⟩ ++ reward_granted_text 5 :=
  (C7_theorem (.ok [("42", "111")]) "42" (some 5) (some 2021) ⟨2021, 12⟩).1 rfl rfl

/-- C8: when the mapping-file JSON is malformed, `link_command` aborts before
any write — no mapping is written, no webhook is sent — and the failure reply
is reported to the invoking user. -/
theorem C8_theorem (aoc_id : Int) (author_id author_username author_mention : String)
    (cache_read : FileRead Leaderboard) (rb : Bool) (role : Option Int) (today : Date) :
    link_command .corrupt aoc_id author_id author_username author_mention cache_read
      rb role today = ⟨none, [read_failure_reply], none⟩ := rfl

/-- C10: without an explicit year override, the year used for the
leaderboard request — and embedded in the request URL — is the current
calendar year in November and December and the previous calendar year in
every other month. -/
theorem C10_theorem (today : Date) (leaderboard_id : Int) :
    fetch_leaderboard_year none today =
      (if today.month = 11 ∨ today.month = 12 then today.year else today.year - 1) ∧
    fetch_leaderboard_url leaderboard_id none today =
      "https://adventofcode.com/" ++
        toString (if today.month = 11 ∨ today.month = 12 then today.year
          else today.year - 1) ++
        "/leaderboard/private/view/" ++ toString leaderboard_id ++ ".json" := by
  have h : fetch_leaderboard_year none today =
      (if today.month = 11 ∨ today.month = 12 then today.year else today.year - 1) := by
    show get_default_year today = _
    rw [get_default_year]
    by_cases h11 : today.month = 11
    · rw [if_neg fun hc => hc.1 h11, if_pos (Or.inl h11)]
    · by_cases h12 : today.month = 12
      · rw [if_neg fun hc => hc.2 h12, if_pos (Or.inr h12)]
      · rw [if_pos ⟨h11, h12⟩, if_neg fun hc => hc.elim h11 h12]
  exact ⟨h, by rw [fetch_leaderboard_url, fetch_leaderboard_year] at *; rw [h]⟩

